import Mathlib

/-!
# CompileNext: the orchestration glue of the TeaVM playground

A shallow embedding of `src/App.js` (the React component `App`: `initializeTeaVM`,
`compileJava`, `runCode`, `clearAll`) and of the standalone `compileJava` of
`src/teavm.js`, followed by the properties settled against them.

Modelling conventions.

* React state (`useState`) is a record `UI`.  A handler reads the values captured by
  its closure (the state at the start of the action) and issues updates; updates of
  one state variable are applied in issue order, so the state after the action is the
  sequential composition of the updates.  `addToConsole` is the functional update
  `prev => prev + text`.
* `console.log` is a mutable, process-wide property; it is the field `World.sink`.
* The compiler engine, the generated module, `fetch`, `eval` are external.  Their
  behaviour is an explicit parameter (an environment record) of each action: what a
  call returns, whether it throws, which diagnostics it hands to the registered
  callback, which `console.log` calls a program makes.
* `await` only sequences the steps; a rejected promise is a thrown error.
-/

namespace CompileNext

/-! ## Data model -/

/-- A thrown JavaScript error, reduced to the two properties the handlers read. -/
structure JsError where
  message : String
  stack : String
deriving DecidableEq, Repr

/-- Diagnostic record passed by the compiler to the `onDiagnostic` callback. -/
structure Diagnostic where
  severity : String
  fileName : String
  lineNumber : Int
  message : String
deriving DecidableEq, Repr

/-- The value stored in `console.log`.  `native` is the host function; the two other
constructors are the closures installed by `compileJava` (App.js lines 147-150) and by
`runCode` (lines 222-224), each remembering the `originalLog` it captured. -/
inductive Sink where
  | native : Sink
  | compileCapture (originalLog : Sink) : Sink
  | runCapture (originalLog : Sink) : Sink
deriving DecidableEq, Repr

/-- The six `useState` cells of `App` (App.js lines 5-25). -/
structure UI where
  javaCode : String
  jsOutput : String
  consoleOutput : String
  status : String
  isInitialized : Bool
  canRun : Bool
deriving DecidableEq, Repr

/-- A method call on the compiler engine, the compiler handle or the listener. -/
inductive HandleCall where
  | createCompiler : HandleCall
  | setSdk (byteLength : Nat) : HandleCall
  | setTeaVMClasslib (byteLength : Nat) : HandleCall
  | onDiagnostic : HandleCall
  | clearSourceFiles : HandleCall
  | addSourceFile (name : String) (text : String) : HandleCall
  | compile : HandleCall
  | generateWebAssembly (outputName : String) (mainClass : String) : HandleCall
  | getWebAssemblyOutputFile (name : String) : HandleCall
  | listenerDestroy : HandleCall
deriving DecidableEq, Repr

/-- Everything an action of `App` can observe or change. -/
structure World where
  ui : UI
  /-- Current value of `console.log`. -/
  sink : Sink
  /-- Messages shown with `alert`. -/
  alerts : List String
  /-- Calls made on the compiler engine, handle and listener, oldest first. -/
  calls : List HandleCall
  /-- Texts handed to `eval`, oldest first. -/
  evals : List String
  /-- Argument lists that reached the host `console.log`. -/
  hostLog : List (List String)
  /-- Labels and errors reported with `console.error`. -/
  errorLog : List (String × JsError)
deriving DecidableEq, Repr

/-! ## JavaScript string helpers -/

/-- ECMAScript WhiteSpace and LineTerminator code points, the ones `trim` removes. -/
def isJsWhiteSpace (c : Char) : Bool :=
  let n := c.toNat
  n = 0x09 || n = 0x0A || n = 0x0B || n = 0x0C || n = 0x0D ||
  n = 0x20 || n = 0xA0 || n = 0x1680 || (0x2000 ≤ n && n ≤ 0x200A) ||
  n = 0x2028 || n = 0x2029 || n = 0x202F || n = 0x205F || n = 0x3000 || n = 0xFEFF

/-- Model of `String.prototype.trim`. -/
def jsTrim (s : String) : String :=
  ⟨((s.data.dropWhile isJsWhiteSpace).reverse.dropWhile isJsWhiteSpace).reverse⟩

/-- Whether `sub` occurs in `s`, on character lists. -/
def includesChars : List Char → List Char → Bool
  | [], sub => sub.isEmpty
  | c :: s, sub => sub.isPrefixOf (c :: s) || includesChars s sub

/-- Model of `String.prototype.includes`. -/
def includes (s sub : String) : Bool :=
  includesChars s.data sub.data

/-- Model of `args.join(' ')` for arguments already rendered as text. -/
def joinArgs (args : List String) : String :=
  String.intercalate " " args

/-! ## State updates -/

def setJavaCode (v : String) (w : World) : World :=
  { w with ui := { w.ui with javaCode := v } }

def setJsOutput (v : String) (w : World) : World :=
  { w with ui := { w.ui with jsOutput := v } }

def setConsoleOutput (v : String) (w : World) : World :=
  { w with ui := { w.ui with consoleOutput := v } }

def setStatus (v : String) (w : World) : World :=
  { w with ui := { w.ui with status := v } }

def setIsInitialized (v : Bool) (w : World) : World :=
  { w with ui := { w.ui with isInitialized := v } }

def setCanRun (v : Bool) (w : World) : World :=
  { w with ui := { w.ui with canRun := v } }

/-- App.js lines 39-41. -/
def addToConsole (text : String) (w : World) : World :=
  { w with ui := { w.ui with consoleOutput := w.ui.consoleOutput ++ text } }

def recordCall (c : HandleCall) (w : World) : World :=
  { w with calls := w.calls ++ [c] }

/-- Effect of calling the function stored in `console.log` with `args`, when that
function is `k`.  The closure of `compileJava` also appends to its own local
`capturedOutput`; for the running action that variable is threaded explicitly (see
`runMain`), for a closure left over from a finished action it is unobservable. -/
def Sink.write : Sink → List String → World → World
  | .native, args, w => { w with hostLog := w.hostLog ++ [args] }
  | .compileCapture originalLog, args, w => originalLog.write args w
  | .runCapture _, args, w => addToConsole (joinArgs args ++ "\n") w

/-- Behaviour of a program run (the generated `main`, or an evaluated text): the
`console.log` calls it makes, in order, and the error it ends with, if any. -/
structure ProgramRun where
  logs : List (List String)
  thrown : Option JsError
deriving DecidableEq, Repr

/-! ## `clearAll` (App.js lines 238-248) -/

/-- The default sample the source buffer is created with: the argument of
`useState` for `javaCode` (App.js lines 5-19). -/
def initialSample : String :=
  "public class Main \x7b\n" ++
  "    public static void main(String[] args) \x7b\n" ++
  "        System.out.println(\"Hello from TeaVM!\");\n" ++
  "        System.out.println(\"Java compiled to JavaScript!\");\n" ++
  "        \n" ++
  "        // Simple calculation\n" ++
  "        int result = fibonacci(10);\n" ++
  "        System.out.println(\"Fibonacci(10) = \" + result);\n" ++
  "    \x7d\n" ++
  "    \n" ++
  "    public static int fibonacci(int n) \x7b\n" ++
  "        if (n <= 1) return n;\n" ++
  "        return fibonacci(n - 1) + fibonacci(n - 2);\n" ++
  "    \x7d\n" ++
  "\x7d"

/-- The sample installed by `clearAll` (lines 239-243). -/
def clearSample : String :=
  "public class Main \x7b\n" ++
  "    public static void main(String[] args) \x7b\n" ++
  "        System.out.println(\"Hello from TeaVM!\");\n" ++
  "    \x7d\n" ++
  "\x7d"

def clearAll (w : World) : World :=
  let isInitialized := w.ui.isInitialized
  let w := setJavaCode clearSample w
  let w := setJsOutput "" w
  let w := setConsoleOutput "" w
  let w := setCanRun false w
  setStatus (if isInitialized then "Ready to compile!" else "Loading...") w

/-! ## `runCode` (App.js lines 213-236) -/

/-- The host evaluator: the run that `eval` of a text performs. -/
structure RunEnv where
  evalJs : String → ProgramRun

def runCode (env : RunEnv) (w : World) : World :=
  let jsOutput := w.ui.jsOutput
  let consoleOutput := w.ui.consoleOutput
  if jsOutput = "" || includes jsOutput "// Compilation failed" ||
      includes jsOutput "// Error:" then
    setConsoleOutput "No valid JavaScript code to run. Please compile first." w
  else
    let w := setConsoleOutput "" w
    let originalLog := w.sink
    let w := { w with sink := Sink.runCapture originalLog }
    let w := { w with evals := w.evals ++ [jsOutput] }
    let run := env.evalJs jsOutput
    let w := run.logs.foldl (fun acc args => (Sink.runCapture originalLog).write args acc) w
    let w :=
      match run.thrown with
      | none =>
        if consoleOutput = "" then
          setConsoleOutput "Code executed successfully (no output)" w
        else w
      | some error => addToConsole ("Runtime error: " ++ error.message) w
    { w with sink := originalLog }

/-! ## `compileJava` (App.js lines 96-211) -/

/-- A call into the compiler handle: the diagnostics the compiler hands to the
registered callback while the call runs, then the value returned or error thrown. -/
structure Effect (α : Type) where
  diags : List Diagnostic
  result : Except JsError α

/-- The object returned by `onDiagnostic`: `destroy` is `none` when the object has no
such property, otherwise what calling it does. -/
structure Listener where
  destroy : Option (Except JsError Unit)

/-- The value returned by `compile()`: its truthiness and its rendering in a template
literal. -/
structure CompileResult where
  truthy : Bool
  shown : String

/-- The `exports` object of a loaded module: its own enumerable keys and the run of
`main([])` when `main` is present and truthy. -/
structure Exports where
  names : List String
  main : Option ProgramRun

/-- The object returned by `load`: `exports` is `none` when the property is missing. -/
structure Runtime where
  exports : Option Exports

/-- External behaviour during one `compileJava` action. -/
structure CompileEnv where
  /-- `compiler.onDiagnostic`: `none` when the capability is absent, otherwise the
  outcome of the call; a successful call returns a listener object or a falsy value. -/
  onDiagnostic : Option (Except JsError (Option Listener))
  clearSourceFiles : Effect Unit
  addSourceFile : Effect Unit
  compile : Effect CompileResult
  generateWebAssembly : Effect Unit
  /-- The returned bytes, `none` for `null`. -/
  getWebAssemblyOutputFile : Effect (Option (List Nat))
  /-- Outcome of `import('./c.js')` followed by `load(wasmBytes)`. -/
  load : Except JsError Runtime
  /-- The TypeError raised by `Object.keys(undefined)`. -/
  keysError : JsError

/-- The line the listener appends for one diagnostic (App.js line 110). -/
def diagLine (d : Diagnostic) : String :=
  "[" ++ d.severity ++ "] " ++ d.fileName ++ ":" ++ toString d.lineNumber ++ " - " ++
    d.message ++ "\n"

/-- The line the failure branch appends for one diagnostic (App.js line 195). -/
def dumpLine (d : Diagnostic) : String :=
  d.severity ++ ": " ++ d.message ++ "\n"

/-- Local state of one `compileJava` action: the world and the `diagnostics` array. -/
structure Run where
  w : World
  diagnostics : List Diagnostic

/-- The callback of lines 108-111, applied to one diagnostic. -/
def onDiagnosticCallback (r : Run) (d : Diagnostic) : Run :=
  { w := addToConsole (diagLine d) r.w, diagnostics := r.diagnostics ++ [d] }

/-- Perform one call on the compiler handle: record it, run the callback on the
diagnostics it delivers (when a callback is registered), and give back its outcome. -/
def invoke {α : Type} (attached : Bool) (c : HandleCall) (e : Effect α) (r : Run) :
    Run × Except JsError α :=
  let r := { r with w := recordCall c r.w }
  let r := if attached then e.diags.foldl onDiagnosticCallback r else r
  (r, e.result)

/-- The `console.log` calls of the generated `main` while the closure of lines 147-150
is installed: each appends to `capturedOutput` and is forwarded to `originalLog`. -/
def runMain (originalLog : Sink) (logs : List (List String)) (w : World)
    (capturedOutput : String) : World × String :=
  logs.foldl
    (fun acc args => (originalLog.write args acc.1, acc.2 ++ (joinArgs args ++ "\n")))
    (w, capturedOutput)

/-- Body of the innermost `try` (lines 137-164).  Gives the local state, the value of
`capturedOutput` and the error thrown, if any, at the point control leaves the block. -/
def wasmTryBody (env : CompileEnv) (attached : Bool) (r : Run) :
    Run × String × Option JsError :=
  match invoke attached (.getWebAssemblyOutputFile "app.wasm") env.getWebAssemblyOutputFile r with
  | (r, .error e) => (r, "", some e)
  | (r, .ok none) => ({ r with w := addToConsole "No WebAssembly output found\n" r.w }, "", none)
  | (r, .ok (some wasmBytes)) =>
    if wasmBytes.length > 0 then
      let w := addToConsole ("WebAssembly module: " ++ toString wasmBytes.length ++ " bytes\n") r.w
      match env.load with
      | .error e => ({ r with w := w }, "", some e)
      | .ok runtime =>
        let w := addToConsole "WebAssembly module loaded successfully\n" w
        let originalLog := w.sink
        let w := { w with sink := Sink.compileCapture originalLog }
        match runtime.exports with
        | none =>
          let w := addToConsole "No main method found in WebAssembly exports\n" w
          ({ r with w := w }, "", some env.keysError)
        | some ex =>
          match ex.main with
          | some run =>
            let (w, capturedOutput) := runMain originalLog run.logs w ""
            match run.thrown with
            | some e => ({ r with w := w }, capturedOutput, some e)
            | none =>
              let w := addToConsole "Executed WebAssembly main method\n" w
              ({ r with w := { w with sink := originalLog } }, capturedOutput, none)
          | none =>
            let w := addToConsole "No main method found in WebAssembly exports\n" w
            let w := addToConsole ("Available exports: " ++ String.intercalate ", " ex.names ++ "\n") w
            ({ r with w := { w with sink := originalLog } }, "", none)
    else
      ({ r with w := addToConsole "No WebAssembly output found\n" r.w }, "", none)

/-- The placeholder of lines 175-177. -/
def executedPlaceholder : String :=
  "// Compilation successful\n" ++
  "// WebAssembly module generated and executed\n" ++
  "// Check the Console Output section below for results"

/-- Branch taken when `compileResult` is truthy (lines 123-185). -/
def successBranch (env : CompileEnv) (attached : Bool) (r : Run) : Run :=
  let r := { r with w := addToConsole "Generating WebAssembly and trying to execute...\n" r.w }
  match invoke attached (.generateWebAssembly "app" "Main") env.generateWebAssembly r with
  | (r, .error generateError) =>
    let w := setJsOutput ("// TeaVM generation failed: " ++ generateError.message) r.w
    let w := setStatus "TeaVM generation failed" w
    let w := addToConsole ("TeaVM generation failed: " ++ generateError.message ++ "\n") w
    { r with w := w }
  | (r, .ok _) =>
    let r := { r with w := addToConsole "WebAssembly generation completed\n" r.w }
    let (r, capturedOutput, thrown) := wasmTryBody env attached r
    let w :=
      match thrown with
      | some wasmError =>
        addToConsole ("WebAssembly execution failed: " ++ wasmError.message ++ "\n") r.w
      | none => r.w
    let w :=
      if capturedOutput ≠ "" && jsTrim capturedOutput ≠ "" then
        let w := setJsOutput capturedOutput w
        let w := setCanRun true w
        setStatus "WebAssembly compilation and execution successful!" w
      else
        let w := setJsOutput executedPlaceholder w
        setStatus "Compilation successful (WebAssembly target)" w
    { r with w := w }

/-- Branch taken when `compileResult` is falsy (lines 188-197). -/
def failureBranch (r : Run) : Run :=
  let w := setJsOutput "// Java compilation failed" r.w
  let w := setStatus "Java compilation failed" w
  let w := addToConsole "Java compilation failed\n" w
  let w :=
    if r.diagnostics.length > 0 then
      let w := addToConsole "\nDiagnostics:\n" w
      r.diagnostics.foldl (fun acc d => addToConsole (dumpLine d) acc) w
    else w
  { r with w := w }

/-- Lines 200-202: detach the listener. -/
def detach (listener : Option Listener) (w : World) : World × Option JsError :=
  match listener with
  | none => (w, none)
  | some l =>
    match l.destroy with
    | none => (w, none)
    | some (.ok _) => (recordCall .listenerDestroy w, none)
    | some (.error e) => (recordCall .listenerDestroy w, some e)

/-- Lines 118-202, from the call of `compile()` on. -/
def compileAndFinish (env : CompileEnv) (attached : Bool) (listener : Option Listener)
    (r : Run) : World × Option JsError :=
  match invoke attached .compile env.compile r with
  | (r, .error e) => (r.w, some e)
  | (r, .ok compileResult) =>
    let r := { r with w := addToConsole ("Java compilation result: " ++ compileResult.shown ++ "\n") r.w }
    let r := if compileResult.truthy then successBranch env attached r else failureBranch r
    detach listener r.w

/-- Lines 113-202, once the listener expression of lines 108-111 has been evaluated. -/
def submitAndCompile (env : CompileEnv) (javaCode : String) (attached : Bool)
    (listener : Option Listener) (w : World) : World × Option JsError :=
  let r : Run := { w := w, diagnostics := [] }
  match invoke attached .clearSourceFiles env.clearSourceFiles r with
  | (r, .error e) => (r.w, some e)
  | (r, .ok _) =>
    match invoke attached (.addSourceFile "Main.java" javaCode) env.addSourceFile r with
    | (r, .error e) => (r.w, some e)
    | (r, .ok _) =>
      let r := { r with w := addToConsole "Source file added, compiling Java...\n" r.w }
      compileAndFinish env attached listener r

/-- Body of the outer `try` (lines 107-202): the world and the error thrown, if any,
when control leaves the block. -/
def compileTryBody (env : CompileEnv) (javaCode : String) (w : World) :
    World × Option JsError :=
  match env.onDiagnostic with
  | none => submitAndCompile env javaCode false none w
  | some (.error e) => (recordCall .onDiagnostic w, some e)
  | some (.ok listener) =>
    submitAndCompile env javaCode true listener (recordCall .onDiagnostic w)

/-- The outer `catch` block (lines 205-209). -/
def outerCatch (error : JsError) (w : World) : World :=
  let w := setJsOutput ("// Error: " ++ error.message) w
  let w := setStatus ("Compilation error: " ++ error.message) w
  let w := addToConsole ("Compilation error: " ++ error.message ++ "\n") w
  let w := addToConsole ("Stack trace: " ++ error.stack ++ "\n") w
  { w with errorLog := w.errorLog ++ [("Compilation error:", error)] }

def compileJava (env : CompileEnv) (w : World) : World :=
  if !w.ui.isInitialized then
    { w with alerts := w.alerts ++ ["TeaVM not ready yet. Please wait for initialization."] }
  else
    let javaCode := w.ui.javaCode
    let w := setStatus "Compiling..." w
    let w := setConsoleOutput "Starting compilation...\n" w
    match compileTryBody env javaCode w with
    | (w, none) => w
    | (w, some error) => outerCatch error w

/-! ## `initializeTeaVM` (App.js lines 44-91) -/

/-- A `fetch` response: the status line and the outcome of `arrayBuffer()` (the byte
length of the body). -/
structure Response where
  status : Nat
  statusText : String
  arrayBuffer : Except JsError Nat

/-- The `ok` property of a response: the status is in the range 200-299. -/
def Response.ok (r : Response) : Bool :=
  200 ≤ r.status && r.status ≤ 299

/-- External behaviour during `initializeTeaVM`. -/
structure InitEnv where
  /-- Outcome of `import('./c.js')`, `load('/compiler.wasm')` and reading `exports`. -/
  load : Except JsError Unit
  createCompiler : Except JsError Unit
  /-- Outcome of `fetch('/compile-classlib-teavm.bin')`. -/
  fetchSdk : Except JsError Response
  setSdk : Except JsError Unit
  /-- Outcome of `fetch('/runtime-classlib-teavm.bin')`. -/
  fetchRuntime : Except JsError Response
  setTeaVMClasslib : Except JsError Unit
  /-- The `stack` property the host gives to `new Error(message)`. -/
  newErrorStack : String → String

/-- The value `new Error(message)`. -/
def InitEnv.newError (env : InitEnv) (message : String) : JsError :=
  { message := message, stack := env.newErrorStack message }

/-- Lines 70-83: the runtime class library and the final flag. -/
def loadRuntime (env : InitEnv) (w : World) : World × Option JsError :=
  let w := setStatus "Loading TeaVM runtime..." w
  let w := addToConsole "Loading TeaVM runtime from runtime-classlib-teavm.bin...\n" w
  match env.fetchRuntime with
  | .error e => (w, some e)
  | .ok response =>
    if !response.ok then
      (w, some (env.newError ("Failed to load TeaVM runtime: " ++ toString response.status ++
        " " ++ response.statusText)))
    else
      match response.arrayBuffer with
      | .error e => (w, some e)
      | .ok byteLength =>
        let w := addToConsole ("TeaVM runtime loaded: " ++ toString byteLength ++ " bytes\n") w
        let w := recordCall (.setTeaVMClasslib byteLength) w
        match env.setTeaVMClasslib with
        | .error e => (w, some e)
        | .ok _ =>
          let w := addToConsole "TeaVM runtime set successfully\n" w
          let w := setStatus "Ready to compile!" w
          let w := addToConsole "Initialization complete! Ready to compile Java code.\n" w
          (setIsInitialized true w, none)

/-- Lines 59-83: the SDK class library, then the runtime class library. -/
def loadSdk (env : InitEnv) (w : World) : World × Option JsError :=
  let w := setStatus "Loading SDK..." w
  let w := addToConsole "Loading SDK from compile-classlib-teavm.bin...\n" w
  match env.fetchSdk with
  | .error e => (w, some e)
  | .ok response =>
    if !response.ok then
      (w, some (env.newError ("Failed to load SDK: " ++ toString response.status ++
        " " ++ response.statusText)))
    else
      match response.arrayBuffer with
      | .error e => (w, some e)
      | .ok byteLength =>
        let w := addToConsole ("SDK loaded: " ++ toString byteLength ++ " bytes\n") w
        let w := recordCall (.setSdk byteLength) w
        match env.setSdk with
        | .error e => (w, some e)
        | .ok _ =>
          let w := addToConsole "SDK set successfully\n" w
          loadRuntime env w

/-- Body of the `try` of `initializeTeaVM` (lines 49-83). -/
def initTryBody (env : InitEnv) (w : World) : World × Option JsError :=
  let w := addToConsole "Loading WebAssembly module...\n" w
  match env.load with
  | .error e => (w, some e)
  | .ok _ =>
    let w := addToConsole "WebAssembly module loaded successfully\n" w
    let w := addToConsole "Creating compiler instance...\n" w
    let w := recordCall .createCompiler w
    match env.createCompiler with
    | .error e => (w, some e)
    | .ok _ =>
      let w := addToConsole "Compiler instance created\n" w
      loadSdk env w

def initializeTeaVM (env : InitEnv) (w : World) : World :=
  let w := setStatus "Loading TeaVM..." w
  let w := addToConsole "Initializing TeaVM...\n" w
  match initTryBody env w with
  | (w, none) => w
  | (w, some error) =>
    let w := setStatus ("Error: " ++ error.message) w
    let w := addToConsole ("Initialization error: " ++ error.message ++ "\n") w
    let w := addToConsole ("Stack trace: " ++ error.stack ++ "\n") w
    { w with errorLog := w.errorLog ++ [("Initialization error:", error)] }

/-! ## `compileJava` of `src/teavm.js` (lines 32-59) -/

namespace Teavm

/-- The module-level flag of `teavm.js`, the cells behind the three setter callbacks
passed by the caller, and the observable calls. -/
structure TeaWorld where
  isInitialized : Bool
  status : String
  output : String
  jsOutput : String
  alerts : List String
  calls : List HandleCall
deriving DecidableEq, Repr

/-- External behaviour of the compiler during the standalone `compileJava`. -/
structure TeaEnv where
  clearSourceFiles : Except JsError Unit
  addSourceFile : Except JsError Unit
  /-- Truthiness of the value returned by `compile()`. -/
  compile : Except JsError Bool

/-- Body of the `try` (lines 39-53): the state and the error thrown, if any. -/
def compileTryBody (env : TeaEnv) (javaCode : String) (t : TeaWorld) :
    TeaWorld × Option JsError :=
  let t := { t with status := "Compiling..." }
  let t := { t with output := "Compiling Java code...\n" }
  let t := { t with calls := t.calls ++ [.clearSourceFiles] }
  match env.clearSourceFiles with
  | .error e => (t, some e)
  | .ok _ =>
    let t := { t with calls := t.calls ++ [.addSourceFile "Main.java" javaCode] }
    match env.addSourceFile with
    | .error e => (t, some e)
    | .ok _ =>
      let t := { t with calls := t.calls ++ [.compile] }
      match env.compile with
      | .error e => (t, some e)
      | .ok compileResult =>
        if !compileResult then
          let t := { t with status := "Compilation failed" }
          ({ t with jsOutput := "// Compilation failed" }, none)
        else
          let t := { t with status := "Compilation successful!" }
          ({ t with output := t.output ++ "Compilation successful!\n" }, none)

def compileJava (env : TeaEnv) (javaCode : String) (t : TeaWorld) : TeaWorld :=
  if !t.isInitialized then
    { t with alerts := t.alerts ++ ["TeaVM not ready yet!"] }
  else
    match compileTryBody env javaCode t with
    | (t, none) => t
    | (t, some error) =>
      let t := { t with status := "Compilation error" }
      let t := { t with jsOutput := "// Error: " ++ error.message }
      { t with output := t.output ++ "Error: " ++ error.message ++ "\n" }

end Teavm

/-! ## Specification-side vocabulary -/

/-- Concatenation of a list of texts, in order. -/
def concat : List String → String
  | [] => ""
  | s :: rest => s ++ concat rest

/-- The captured text as the specification words it: for each `console.log` call, in
order, the arguments joined by one space, followed by a newline. -/
def capturedText (logs : List (List String)) : String :=
  concat (logs.map (fun args => String.intercalate " " args ++ "\n"))

/-- The text the failure branch appends after `Java compilation failed`: nothing when
no diagnostic was collected, otherwise a header and one `dumpLine` per record. -/
def failureDump (ds : List Diagnostic) : String :=
  if ds.length > 0 then "\nDiagnostics:\n" ++ concat (ds.map dumpLine) else ""

/-- During the action, `compile()` is reached and returns `res`: attaching the
listener, `clearSourceFiles` and `addSourceFile` do not throw. -/
def compileReturns (env : CompileEnv) (res : CompileResult) : Prop :=
  (∀ e, env.onDiagnostic ≠ some (.error e)) ∧
  env.clearSourceFiles.result = .ok () ∧
  env.addSourceFile.result = .ok () ∧
  env.compile.result = .ok res

/-- Detaching the listener does not throw: the object returned by `onDiagnostic`, if
it has a `destroy` method, returns from it. -/
def detachReturns (env : CompileEnv) : Prop :=
  ∀ l e, env.onDiagnostic = some (.ok (some l)) → l.destroy ≠ some (.error e)

/-- Whether the callback of lines 108-111 got registered. -/
def attachedOf (env : CompileEnv) : Bool :=
  match env.onDiagnostic with
  | some (.ok _) => true
  | _ => false

/-- The value of the local `listener` once line 111 has run. -/
def listenerOf (env : CompileEnv) : Option Listener :=
  match env.onDiagnostic with
  | some (.ok listener) => listener
  | _ => none

/-- The world once line 111 has run: the call of `onDiagnostic` is recorded when the
capability exists. -/
def afterAttach (env : CompileEnv) (w : World) : World :=
  match env.onDiagnostic with
  | none => w
  | some _ => recordCall .onDiagnostic w

/-- The diagnostics a call hands to the callback: those of the call when a callback is
registered, none otherwise. -/
def delivered {α : Type} (attached : Bool) (e : Effect α) : List Diagnostic :=
  if attached then e.diags else []

/-- The world of the action just before `compile()` returns control to line 120, when
attaching, `clearSourceFiles` and `addSourceFile` did not throw. -/
def worldAtCompile (env : CompileEnv) (w : World) : World :=
  addToConsole (concat ((delivered (attachedOf env) env.compile).map diagLine))
    (recordCall .compile
      (addToConsole "Source file added, compiling Java...\n"
        (addToConsole (concat ((delivered (attachedOf env) env.addSourceFile).map diagLine))
          (recordCall (.addSourceFile "Main.java" w.ui.javaCode)
            (addToConsole (concat ((delivered (attachedOf env) env.clearSourceFiles).map diagLine))
              (recordCall .clearSourceFiles
                (afterAttach env
                  (setConsoleOutput "Starting compilation...\n"
                    (setStatus "Compiling..." w)))))))))

/-- The `diagnostics` array when `compile()` has returned. -/
def collected (env : CompileEnv) : List Diagnostic :=
  delivered (attachedOf env) env.clearSourceFiles ++
    delivered (attachedOf env) env.addSourceFile ++ delivered (attachedOf env) env.compile

/-- How an action that leaves the outer `try` ends: normally, or through `outerCatch`. -/
def finishTry (out : World × Option JsError) : World :=
  match out with
  | (w, none) => w
  | (w, some error) => outerCatch error w

/-! ## Concrete inputs used by the closed statements below -/

/-- The UI state right after mounting (App.js lines 21-25), with an empty source. -/
def ui0 : UI :=
  { javaCode := "", jsOutput := "", consoleOutput := "", status := "Loading...",
    isInitialized := false, canRun := false }

/-- A world with the host `console.log` installed and nothing recorded. -/
def world0 : World :=
  { ui := ui0, sink := .native, alerts := [], calls := [], evals := [], hostLog := [],
    errorLog := [] }

/-- The world right after `App` mounts: every `useState` cell holds its initial value
(App.js lines 5-25). -/
def worldMounted : World :=
  { world0 with ui := { ui0 with javaCode := initialSample } }

/-- A world whose initialization has completed. -/
def worldReady : World :=
  { world0 with ui := { ui0 with status := "Ready to compile!", isInitialized := true } }

/-- A call that delivers no diagnostic and returns. -/
def quiet {α : Type} (a : α) : Effect α :=
  { diags := [], result := .ok a }

/-- A listener object whose `destroy` returns. -/
def plainListener : Listener :=
  { destroy := some (.ok ()) }

/-- A generated module whose `main` logs one line and returns. -/
def helloRuntime : Runtime :=
  { exports := some { names := ["main"], main := some { logs := [["Hello from TeaVM!"]], thrown := none } } }

/-- A compiler for which every step succeeds and the program prints one line. -/
def envSuccess : CompileEnv :=
  { onDiagnostic := some (.ok (some plainListener))
    clearSourceFiles := quiet ()
    addSourceFile := quiet ()
    compile := quiet { truthy := true, shown := "true" }
    generateWebAssembly := quiet ()
    getWebAssemblyOutputFile := quiet (some [0, 97, 115, 109])
    load := .ok helloRuntime
    keysError := { message := "Cannot convert undefined or null to object", stack := "" } }

/-- The world after a first, successful compile: the output buffer holds the captured
text and the runnable flag is true. -/
def worldRunnable : World :=
  compileJava envSuccess worldReady

/-- As `envSuccess`, but `listener.destroy()` throws. -/
def envDestroyThrows : CompileEnv :=
  { envSuccess with
    onDiagnostic := some (.ok (some
      { destroy := some (.error { message := "listener already detached", stack := "" }) })) }

/-- One syntax error, as the compiler reports it. -/
def missingSemicolon : Diagnostic :=
  { severity := "ERROR", fileName := "Main.java", lineNumber := 3, message := "missing semicolon" }

/-- A compiler that reports one diagnostic while compiling and returns `false`. -/
def envCompileFalse : CompileEnv :=
  { envSuccess with
    compile := { diags := [missingSemicolon], result := .ok { truthy := false, shown := "false" } } }

/-- A compiler whose `compile()` throws. -/
def envCompileThrows : CompileEnv :=
  { envSuccess with
    compile := { diags := [], result := .error { message := "compiler crashed", stack := "" } } }

/-- A generated module whose `main` logs one line and then throws. -/
def throwingRuntime : Runtime :=
  { exports := some
      { names := ["main"],
        main := some
          { logs := [["Hello from TeaVM!"]],
            thrown := some { message := "unreachable executed", stack := "" } } } }

/-- A compiler whose generated `main` logs one line and then throws. -/
def envMainThrows : CompileEnv :=
  { envSuccess with load := .ok throwingRuntime }

/-- A compiler whose generated module has no `exports` property. -/
def envNoExports : CompileEnv :=
  { envSuccess with load := .ok { exports := none } }

/-- A compiler that generates no artifact: the output file is empty. -/
def envEmptyArtifact : CompileEnv :=
  { envSuccess with getWebAssemblyOutputFile := quiet (some []) }

/-- An evaluator for which the evaluated text logs nothing and does not throw, as is
the case for a text made of a line comment. -/
def evalSilent : RunEnv :=
  { evalJs := fun _ => { logs := [], thrown := none } }

/-- Responses and environment of an initialization whose runtime-library fetch
answers 404. -/
def sdkResponse : Response :=
  { status := 200, statusText := "OK", arrayBuffer := .ok 1024 }

def notFoundResponse : Response :=
  { status := 404, statusText := "Not Found", arrayBuffer := .ok 0 }

def envRuntime404 : InitEnv :=
  { load := .ok ()
    createCompiler := .ok ()
    fetchSdk := .ok sdkResponse
    setSdk := .ok ()
    fetchRuntime := .ok notFoundResponse
    setTeaVMClasslib := .ok ()
    newErrorStack := fun _ => "" }

/-- The cells of a caller of teavm.js before its initialization has finished. -/
def tea0 : Teavm.TeaWorld :=
  { isInitialized := false, status := "", output := "", jsOutput := "", alerts := [], calls := [] }

def teaEnv0 : Teavm.TeaEnv :=
  { clearSourceFiles := .ok (), addSourceFile := .ok (), compile := .ok true }

/-! ## Properties -/

set_option maxRecDepth 8000 in
/-- C10 (amended): for every prior state, `clearAll` sets the source buffer to the
five-line program of lines 239-243 (a class `Main` whose `main` prints
`Hello from TeaVM!`), a text that does not depend on the prior state and is not the
default sample the buffer is created with (lines 5-19); it sets the output buffer and
the console log to the empty string and the runnable flag to false, keeps the readiness
flag, and sets the status to `Ready to compile!` when that flag is true and to
`Loading...` otherwise.  Nothing else changes. -/
theorem clearAll_resets (w : World) :
    clearAll w =
      { w with ui :=
        { javaCode :=
            "public class Main \x7b\n    public static void main(String[] args) \x7b\n" ++
            "        System.out.println(\"Hello from TeaVM!\");\n    \x7d\n\x7d"
          jsOutput := ""
          consoleOutput := ""
          status := if w.ui.isInitialized then "Ready to compile!" else "Loading..."
          isInitialized := w.ui.isInitialized
          canRun := false } } ∧
    (clearAll w).ui.javaCode ≠ initialSample := by
  refine ⟨rfl, ?_⟩
  show clearSample ≠ initialSample
  intro h
  have hlen : clearSample.length = initialSample.length := congrArg String.length h
  revert hlen
  decide

set_option maxRecDepth 8000 in
/-- C10 (counterexample): right after mounting, the source buffer holds the default
sample of lines 5-19; `clearAll` replaces it by the shorter program of lines 239-243,
so afterwards the buffer is not that default sample. -/
theorem clearAll_resets_counterexample :
    worldMounted.ui.javaCode = initialSample ∧
    initialSample.length = 447 ∧
    (clearAll worldMounted).ui.javaCode =
      "public class Main \x7b\n    public static void main(String[] args) \x7b\n" ++
      "        System.out.println(\"Hello from TeaVM!\");\n    \x7d\n\x7d" ∧
    (clearAll worldMounted).ui.javaCode.length = 121 ∧
    (clearAll worldMounted).ui.javaCode ≠ worldMounted.ui.javaCode :=
  ⟨rfl, by decide, rfl, by decide, by
    intro h
    have hlen := congrArg String.length h
    revert hlen
    decide⟩

/-- C7: with the readiness flag false, `compileJava` of App.js leaves every UI cell
(source, output buffer, console log, status, runnable and readiness flags) unchanged,
makes no call on the compiler handle and leaves `console.log` alone; it only raises the
alert.  The same holds for the standalone `compileJava` of teavm.js and the cells behind
its setters. -/
theorem compileJava_not_ready_noop (env : CompileEnv) (w : World) (tenv : Teavm.TeaEnv)
    (javaCode : String) (t : Teavm.TeaWorld)
    (hw : w.ui.isInitialized = false) (ht : t.isInitialized = false) :
    ((compileJava env w).ui = w.ui ∧
      (compileJava env w).calls = w.calls ∧
      (compileJava env w).sink = w.sink ∧
      (compileJava env w).alerts =
        w.alerts ++ ["TeaVM not ready yet. Please wait for initialization."]) ∧
    ((Teavm.compileJava tenv javaCode t).isInitialized = false ∧
      (Teavm.compileJava tenv javaCode t).status = t.status ∧
      (Teavm.compileJava tenv javaCode t).output = t.output ∧
      (Teavm.compileJava tenv javaCode t).jsOutput = t.jsOutput ∧
      (Teavm.compileJava tenv javaCode t).calls = t.calls ∧
      (Teavm.compileJava tenv javaCode t).alerts = t.alerts ++ ["TeaVM not ready yet!"]) := by
  constructor
  · simp [compileJava, hw]
  · simp [Teavm.compileJava, ht]

/-! ### Building blocks of `compileJava` -/

theorem addToConsole_empty (w : World) : addToConsole "" w = w := by
  simp [addToConsole]

theorem addToConsole_addToConsole (a b : String) (w : World) :
    addToConsole b (addToConsole a w) = addToConsole (a ++ b) w := by
  simp [addToConsole, String.append_assoc]

theorem foldl_onDiagnosticCallback (ds : List Diagnostic) (r : Run) :
    ds.foldl onDiagnosticCallback r =
      { w := addToConsole (concat (ds.map diagLine)) r.w,
        diagnostics := r.diagnostics ++ ds } := by
  induction ds generalizing r with
  | nil => simp [concat, addToConsole_empty]
  | cons d ds ih =>
    rw [List.foldl_cons, ih]
    simp [onDiagnosticCallback, concat, addToConsole_addToConsole]

theorem invoke_eq {α : Type} (attached : Bool) (c : HandleCall) (e : Effect α) (r : Run) :
    invoke attached c e r =
      ({ w := addToConsole (concat ((delivered attached e).map diagLine)) (recordCall c r.w),
         diagnostics := r.diagnostics ++ delivered attached e }, e.result) := by
  cases attached <;>
    simp [invoke, delivered, foldl_onDiagnosticCallback, concat, addToConsole_empty]

theorem foldl_dumpLine (ds : List Diagnostic) (w : World) :
    ds.foldl (fun acc d => addToConsole (dumpLine d) acc) w =
      addToConsole (concat (ds.map dumpLine)) w := by
  induction ds generalizing w with
  | nil => simp [concat, addToConsole_empty]
  | cons d ds ih =>
    rw [List.foldl_cons, ih]
    simp [concat, addToConsole_addToConsole]

theorem failureBranch_eq (r : Run) :
    failureBranch r =
      { w := addToConsole ("Java compilation failed\n" ++ failureDump r.diagnostics)
          (setStatus "Java compilation failed" (setJsOutput "// Java compilation failed" r.w)),
        diagnostics := r.diagnostics } := by
  unfold failureBranch failureDump
  by_cases h : r.diagnostics.length > 0
  · simp only [h, if_true, foldl_dumpLine, addToConsole_addToConsole, String.append_assoc]
  · simp [h]

theorem detach_ui (listener : Option Listener) (w : World) :
    (detach listener w).1.ui = w.ui := by
  unfold detach
  split
  · rfl
  · split <;> rfl

theorem compileTryBody_eq (env : CompileEnv) (javaCode : String) (w : World)
    (hd : ∀ e, env.onDiagnostic ≠ some (.error e)) :
    compileTryBody env javaCode w =
      submitAndCompile env javaCode (attachedOf env) (listenerOf env) (afterAttach env w) := by
  unfold compileTryBody attachedOf listenerOf afterAttach
  rcases hon : env.onDiagnostic with _ | (e | listener)
  · rfl
  · exact absurd hon (hd e)
  · rfl

theorem compileJava_eq (env : CompileEnv) (w : World) (hi : w.ui.isInitialized = true) :
    compileJava env w =
      finishTry (compileTryBody env w.ui.javaCode
        (setConsoleOutput "Starting compilation...\n" (setStatus "Compiling..." w))) := by
  unfold compileJava finishTry
  simp only [hi, Bool.not_true, Bool.false_eq_true, if_false]

theorem compileJava_of_compileReturns (env : CompileEnv) (w : World) (res : CompileResult)
    (hi : w.ui.isInitialized = true) (hret : compileReturns env res) :
    compileJava env w =
      finishTry (detach (listenerOf env)
        (if res.truthy then
          successBranch env (attachedOf env)
            { w := addToConsole ("Java compilation result: " ++ res.shown ++ "\n")
                (worldAtCompile env w),
              diagnostics := collected env }
        else
          failureBranch
            { w := addToConsole ("Java compilation result: " ++ res.shown ++ "\n")
                (worldAtCompile env w),
              diagnostics := collected env }).w) := by
  obtain ⟨hd, hclear, hadd, hcompile⟩ := hret
  rw [compileJava_eq env w hi, compileTryBody_eq env _ _ hd]
  simp only [submitAndCompile, compileAndFinish, invoke_eq, hclear, hadd, hcompile]
  rfl

theorem outerCatch_canRun (e : JsError) (w : World) :
    (outerCatch e w).ui.canRun = w.ui.canRun := rfl

theorem finishTry_canRun (out : World × Option JsError) :
    (finishTry out).ui.canRun = out.1.ui.canRun := by
  rcases out with ⟨w1, _ | e⟩ <;> rfl

theorem worldAtCompile_canRun (env : CompileEnv) (w : World) :
    (worldAtCompile env w).ui.canRun = w.ui.canRun := by
  unfold worldAtCompile afterAttach
  split <;> rfl

/-! ### Compile failure -/

/-- C2 (amended): when `compile()` returns a falsy result, `compileJava` leaves the
runnable flag at its prior value, so the flag is false afterwards exactly when it was
false before. -/
theorem compileJava_compile_false_canRun (env : CompileEnv) (w : World) (res : CompileResult)
    (hi : w.ui.isInitialized = true) (hret : compileReturns env res)
    (hfalsy : res.truthy = false) :
    (compileJava env w).ui.canRun = w.ui.canRun := by
  rw [compileJava_of_compileReturns env w res hi hret, finishTry_canRun, detach_ui]
  simp only [hfalsy, Bool.false_eq_true, if_false, failureBranch_eq]
  exact worldAtCompile_canRun env w

theorem attachedOf_of_listener (env : CompileEnv) (listener : Option Listener)
    (hon : env.onDiagnostic = some (.ok listener)) :
    attachedOf env = true ∧ listenerOf env = listener ∧
      ∀ w, afterAttach env w = recordCall .onDiagnostic w := by
  simp [attachedOf, listenerOf, afterAttach, hon]

/-- C3 (amended): when a listener is attached and `compile()` returns a falsy result,
the console log is the start line, then one `diagLine` (the form
`[<severity>] <fileName>:<lineNumber> - <message>`) per diagnostic in delivery order,
appended as the diagnostics arrive around the two progress lines, then
`Java compilation failed`, then `failureDump`: a `Diagnostics:` header followed by one
line `<severity>: <message>` per collected record in delivery order (nothing when no
record was collected); text follows only when detaching the listener throws. -/
theorem compileJava_compile_false_console (env : CompileEnv) (w : World)
    (res : CompileResult) (listener : Option Listener)
    (hi : w.ui.isInitialized = true)
    (hon : env.onDiagnostic = some (.ok listener))
    (hclear : env.clearSourceFiles.result = .ok ())
    (hadd : env.addSourceFile.result = .ok ())
    (hcompile : env.compile.result = .ok res)
    (hfalsy : res.truthy = false) :
    ∃ rest : String,
      (compileJava env w).ui.consoleOutput =
        "Starting compilation...\n" ++
        concat (env.clearSourceFiles.diags.map diagLine) ++
        concat (env.addSourceFile.diags.map diagLine) ++
        "Source file added, compiling Java...\n" ++
        concat (env.compile.diags.map diagLine) ++
        "Java compilation result: " ++ res.shown ++ "\n" ++
        "Java compilation failed\n" ++
        failureDump (env.clearSourceFiles.diags ++ env.addSourceFile.diags ++ env.compile.diags) ++
        rest ∧
      (detachReturns env → rest = "") := by
  have hret : compileReturns env res :=
    ⟨fun e h => (by rw [hon] at h; cases h), hclear, hadd, hcompile⟩
  obtain ⟨hatt, hlis, haft⟩ := attachedOf_of_listener env listener hon
  rw [compileJava_of_compileReturns env w res hi hret, hlis]
  simp only [hfalsy, Bool.false_eq_true, if_false, failureBranch_eq, worldAtCompile, collected,
    hatt, haft, delivered, if_true]
  rcases listener with _ | ⟨_ | (e | u)⟩
  · refine ⟨"", ?_, fun _ => rfl⟩
    simp only [detach, finishTry, addToConsole, recordCall, setStatus, setJsOutput,
      setConsoleOutput, String.append_assoc, String.append_empty]
  · refine ⟨"", ?_, fun _ => rfl⟩
    simp only [detach, finishTry, addToConsole, recordCall, setStatus, setJsOutput,
      setConsoleOutput, String.append_assoc, String.append_empty]
  · refine ⟨"Compilation error: " ++ e.message ++ "\n" ++ ("Stack trace: " ++ e.stack ++ "\n"),
      ?_, fun hdet => absurd rfl (hdet _ e hon)⟩
    simp only [detach, finishTry, outerCatch, addToConsole, recordCall, setStatus, setJsOutput,
      setConsoleOutput, String.append_assoc]
  · refine ⟨"", ?_, fun _ => rfl⟩
    simp only [detach, finishTry, addToConsole, recordCall, setStatus, setJsOutput,
      setConsoleOutput, String.append_assoc, String.append_empty]

/-! ### Compile success -/

theorem runMain_eq (originalLog : Sink) (logs : List (List String)) (w : World)
    (capturedOutput : String) :
    runMain originalLog logs w capturedOutput =
      (logs.foldl (fun acc args => originalLog.write args acc) w,
        capturedOutput ++ capturedText logs) := by
  unfold runMain capturedText
  induction logs generalizing w capturedOutput with
  | nil => simp [concat]
  | cons args logs ih =>
    rw [List.foldl_cons, ih]
    simp [concat, joinArgs, String.append_assoc]

theorem jsTrim_empty : jsTrim "" = "" := by
  decide

theorem detach_of_detachReturns (env : CompileEnv) (hdet : detachReturns env) (w : World) :
    (finishTry (detach (listenerOf env) w)).ui = w.ui := by
  unfold listenerOf
  rcases hon : env.onDiagnostic with _ | (e | listener)
  · rfl
  · rfl
  · rcases listener with _ | ⟨_ | (e | u)⟩
    · rfl
    · rfl
    · exact absurd rfl (hdet _ e hon)
    · rfl

theorem successBranch_captured (env : CompileEnv) (attached : Bool) (r : Run)
    (bytes : List Nat) (runtime : Runtime) (ex : Exports) (run : ProgramRun)
    (hgen : env.generateWebAssembly.result = .ok ())
    (hbytes : env.getWebAssemblyOutputFile.result = .ok (some bytes))
    (hlen : 0 < bytes.length)
    (hload : env.load = .ok runtime)
    (hex : runtime.exports = some ex)
    (hmain : ex.main = some run)
    (hblank : jsTrim (capturedText run.logs) ≠ "") :
    (successBranch env attached r).w.ui.jsOutput = capturedText run.logs ∧
      (successBranch env attached r).w.ui.canRun = true := by
  have hne : capturedText run.logs ≠ "" := by
    intro h
    rw [h] at hblank
    exact hblank jsTrim_empty
  unfold successBranch
  simp only [invoke_eq, hgen]
  unfold wasmTryBody
  simp only [invoke_eq, hbytes, hlen, hload, hex, hmain, runMain_eq, gt_iff_lt, if_true,
    String.empty_append]
  rcases run.thrown with _ | e <;>
    simp [hne, hblank, setJsOutput, setCanRun, setStatus]

/-- C1 (amended): with the readiness flag true, when `compile()` returns a truthy
result, `generateWebAssembly` does not throw, `getWebAssemblyOutputFile("app.wasm")`
returns non-empty bytes, the module loads and exports `main`, the text captured while
`main([])` runs is non-blank after trimming, and detaching the listener does not throw,
the output buffer equals the captured text and the runnable flag is true. -/
theorem compileJava_success_output (env : CompileEnv) (w : World) (res : CompileResult)
    (bytes : List Nat) (runtime : Runtime) (ex : Exports) (run : ProgramRun)
    (hi : w.ui.isInitialized = true)
    (hret : compileReturns env res)
    (htruthy : res.truthy = true)
    (hgen : env.generateWebAssembly.result = .ok ())
    (hbytes : env.getWebAssemblyOutputFile.result = .ok (some bytes))
    (hlen : 0 < bytes.length)
    (hload : env.load = .ok runtime)
    (hex : runtime.exports = some ex)
    (hmain : ex.main = some run)
    (hblank : jsTrim (capturedText run.logs) ≠ "")
    (hdet : detachReturns env) :
    (compileJava env w).ui.jsOutput = capturedText run.logs ∧
      (compileJava env w).ui.canRun = true := by
  rw [compileJava_of_compileReturns env w res hi hret, detach_of_detachReturns env hdet]
  simp only [htruthy, if_true]
  exact successBranch_captured env _ _ bytes runtime ex run hgen hbytes hlen hload hex hmain
    hblank

theorem successBranch_no_artifact (env : CompileEnv) (attached : Bool) (r : Run)
    (bytes : Option (List Nat))
    (hgen : env.generateWebAssembly.result = .ok ())
    (hbytes : env.getWebAssemblyOutputFile.result = .ok bytes)
    (hempty : bytes = none ∨ bytes = some []) :
    (successBranch env attached r).w.ui.jsOutput = executedPlaceholder ∧
      (successBranch env attached r).w.ui.canRun = r.w.ui.canRun ∧
      (successBranch env attached r).w.ui.status = "Compilation successful (WebAssembly target)" ∧
      ∃ pre, (successBranch env attached r).w.ui.consoleOutput =
        pre ++ "No WebAssembly output found\n" := by
  unfold successBranch
  simp only [invoke_eq, hgen]
  unfold wasmTryBody
  simp only [invoke_eq, hbytes]
  rcases hempty with h | h <;> subst h <;>
    simp [setJsOutput, setCanRun, setStatus, addToConsole, recordCall] <;>
    exact ⟨_, rfl⟩

/-- C8 (amended): when `compile()` returns a truthy result, `generateWebAssembly` does
not throw, `getWebAssemblyOutputFile("app.wasm")` returns `null` or empty bytes, and
detaching the listener does not throw, the output buffer becomes the placeholder of
lines 175-177 (`executedPlaceholder`, which says the module was generated and
executed), the status becomes `Compilation successful (WebAssembly target)`, the runnable
flag keeps its prior value, and the console log ends with the line
`No WebAssembly output found`. -/
theorem compileJava_no_artifact (env : CompileEnv) (w : World) (res : CompileResult)
    (bytes : Option (List Nat))
    (hi : w.ui.isInitialized = true)
    (hret : compileReturns env res)
    (htruthy : res.truthy = true)
    (hgen : env.generateWebAssembly.result = .ok ())
    (hbytes : env.getWebAssemblyOutputFile.result = .ok bytes)
    (hempty : bytes = none ∨ bytes = some [])
    (hdet : detachReturns env) :
    (compileJava env w).ui.jsOutput = executedPlaceholder ∧
      (compileJava env w).ui.canRun = w.ui.canRun ∧
      (compileJava env w).ui.status = "Compilation successful (WebAssembly target)" ∧
      ∃ pre, (compileJava env w).ui.consoleOutput = pre ++ "No WebAssembly output found\n" := by
  rw [compileJava_of_compileReturns env w res hi hret, detach_of_detachReturns env hdet]
  simp only [htruthy, if_true]
  have h := successBranch_no_artifact env (attachedOf env)
    { w := addToConsole ("Java compilation result: " ++ res.shown ++ "\n") (worldAtCompile env w),
      diagnostics := collected env } bytes hgen hbytes hempty
  refine ⟨h.1, ?_, h.2.2.1, h.2.2.2⟩
  rw [h.2.1]
  exact worldAtCompile_canRun env w

/-! ### `runCode` -/

/-- Every exit path of `runCode` leaves `console.log` as it found it: the guard returns
before the swap, and the assignment of line 235 follows the `try`/`catch`. -/
theorem runCode_sink_restored (env : RunEnv) (w : World) : (runCode env w).sink = w.sink := by
  unfold runCode
  dsimp only
  split
  · rfl
  · rfl

theorem foldl_runCapture_write (k : Sink) (logs : List (List String)) (w : World) :
    logs.foldl (fun acc args => (Sink.runCapture k).write args acc) w =
      addToConsole (capturedText logs) w := by
  unfold capturedText
  induction logs generalizing w with
  | nil => simp [concat, addToConsole_empty]
  | cons args logs ih =>
    rw [List.foldl_cons, ih]
    simp [Sink.write, joinArgs, concat, addToConsole_addToConsole]

/-- From every state whose output buffer is the placeholder written by the failure
branch of `compileJava`, the guard of `runCode` does not fire: the buffer is handed to
`eval`. -/
theorem runCode_java_failure_not_guarded (env : RunEnv) (w : World)
    (h : w.ui.jsOutput = "// Java compilation failed") :
    (runCode env w).evals = w.evals ++ ["// Java compilation failed"] := by
  have h1 : includes "// Java compilation failed" "// Compilation failed" = false := by decide
  have h2 : includes "// Java compilation failed" "// Error:" = false := by decide
  have h3 : ("// Java compilation failed" : String) ≠ "" := by decide
  unfold runCode
  simp only [h, h1, h2, h3, decide_False, Bool.or_self, Bool.false_eq_true, if_false,
    foldl_runCapture_write]
  cases (env.evalJs "// Java compilation failed").thrown with
  | none => by_cases hc : w.ui.consoleOutput = "" <;> simp [hc, setConsoleOutput, addToConsole]
  | some e => simp [setConsoleOutput, addToConsole]

/-! ### Initialization -/

theorem loadRuntime_flag (env : InitEnv) (w : World) (h0 : w.ui.isInitialized = false)
    (h : (loadRuntime env w).1.ui.isInitialized = true) :
    ∃ r, env.fetchRuntime = .ok r ∧ r.ok = true := by
  unfold loadRuntime at h
  cases hf : env.fetchRuntime with
  | error e => simp [hf, setStatus, addToConsole, h0] at h
  | ok r =>
    refine ⟨r, rfl, ?_⟩
    cases hr : r.ok with
    | false => simp [hf, hr, setStatus, addToConsole, h0] at h
    | true => rfl

theorem loadSdk_flag (env : InitEnv) (w : World) (h0 : w.ui.isInitialized = false)
    (h : (loadSdk env w).1.ui.isInitialized = true) :
    (∃ r, env.fetchSdk = .ok r ∧ r.ok = true) ∧
      (∃ r, env.fetchRuntime = .ok r ∧ r.ok = true) := by
  unfold loadSdk at h
  cases hf : env.fetchSdk with
  | error e => simp [hf, setStatus, addToConsole, h0] at h
  | ok r =>
    cases hr : r.ok with
    | false => simp [hf, hr, setStatus, addToConsole, h0] at h
    | true =>
      refine ⟨⟨r, rfl, hr⟩, ?_⟩
      cases hb : r.arrayBuffer with
      | error e => simp [hf, hr, hb, setStatus, addToConsole, h0] at h
      | ok n =>
        cases hs : env.setSdk with
        | error e => simp [hf, hr, hb, hs, setStatus, addToConsole, recordCall, h0] at h
        | ok u =>
          simp only [hf, hr, hb, hs] at h
          exact loadRuntime_flag env _ (by simp [setStatus, addToConsole, recordCall, h0]) h

theorem initTryBody_flag (env : InitEnv) (w : World) (h0 : w.ui.isInitialized = false)
    (h : (initTryBody env w).1.ui.isInitialized = true) :
    env.load = .ok () ∧ (∃ r, env.fetchSdk = .ok r ∧ r.ok = true) ∧
      (∃ r, env.fetchRuntime = .ok r ∧ r.ok = true) := by
  unfold initTryBody at h
  cases hl : env.load with
  | error e => simp [hl, addToConsole, h0] at h
  | ok u =>
    refine ⟨rfl, ?_⟩
    cases hc : env.createCompiler with
    | error e => simp [hl, hc, addToConsole, recordCall, h0] at h
    | ok u1 =>
      simp only [hl, hc] at h
      exact loadSdk_flag env _ (by simp [addToConsole, recordCall, h0]) h

theorem initializeTeaVM_flag (env : InitEnv) (w : World) :
    (initializeTeaVM env w).ui.isInitialized =
      (initTryBody env (addToConsole "Initializing TeaVM...\n"
        (setStatus "Loading TeaVM..." w))).1.ui.isInitialized := by
  unfold initializeTeaVM
  dsimp only
  generalize initTryBody env _ = res
  rcases res with ⟨w1, _ | e⟩ <;> simp [setStatus, addToConsole]

/-- C6: starting from a readiness flag that is false, `initializeTeaVM` ends with the
flag true only if the engine module loaded and both class-library fetches returned a
success status; when the SDK fetch is reached and returns a non-success status, the
flag is still false and the status is `Error: Failed to load SDK: <status>
<statusText>`; when the runtime-library fetch is reached and returns a non-success
status, the flag is still false and the status is `Error: Failed to load TeaVM
runtime: <status> <statusText>`, the status code being in decimal. -/
theorem initializeTeaVM_readiness (env : InitEnv) (w : World)
    (h0 : w.ui.isInitialized = false) :
    ((initializeTeaVM env w).ui.isInitialized = true →
        env.load = .ok () ∧
        (∃ r, env.fetchSdk = .ok r ∧ r.ok = true) ∧
        (∃ r, env.fetchRuntime = .ok r ∧ r.ok = true)) ∧
    (∀ r : Response, env.load = .ok () → env.createCompiler = .ok () →
        env.fetchSdk = .ok r → r.ok = false →
        (initializeTeaVM env w).ui.isInitialized = false ∧
        (initializeTeaVM env w).ui.status =
          "Error: " ++ ("Failed to load SDK: " ++ toString r.status ++ " " ++ r.statusText)) ∧
    (∀ (sdk : Response) (n : Nat) (r : Response), env.load = .ok () →
        env.createCompiler = .ok () → env.fetchSdk = .ok sdk → sdk.ok = true →
        sdk.arrayBuffer = .ok n → env.setSdk = .ok () →
        env.fetchRuntime = .ok r → r.ok = false →
        (initializeTeaVM env w).ui.isInitialized = false ∧
        (initializeTeaVM env w).ui.status =
          "Error: " ++ ("Failed to load TeaVM runtime: " ++ toString r.status ++ " " ++
            r.statusText)) := by
  refine ⟨?_, ?_, ?_⟩
  · intro h
    rw [initializeTeaVM_flag] at h
    exact initTryBody_flag env _ (by simp [setStatus, addToConsole, h0]) h
  · intro r hl hc hf hr
    simp [initializeTeaVM, initTryBody, loadSdk, hl, hc, hf, hr, setStatus, addToConsole,
      recordCall, InitEnv.newError, h0]
  · intro sdk n r hl hc hf hok hbuf hset hfr hr
    simp [initializeTeaVM, initTryBody, loadSdk, loadRuntime, hl, hc, hf, hok, hbuf, hset,
      hfr, hr, setStatus, addToConsole, recordCall, InitEnv.newError, h0]

/-! ### Closed statements at concrete inputs -/

theorem compileReturns_of_listener (env : CompileEnv) (res : CompileResult)
    (listener : Option Listener) (hon : env.onDiagnostic = some (.ok listener))
    (hclear : env.clearSourceFiles.result = .ok ())
    (hadd : env.addSourceFile.result = .ok ())
    (hcompile : env.compile.result = .ok res) : compileReturns env res :=
  ⟨fun e h => (by rw [hon] at h; cases h), hclear, hadd, hcompile⟩

theorem detachReturns_of_plainListener (env : CompileEnv)
    (hon : env.onDiagnostic = some (.ok (some plainListener))) : detachReturns env := by
  intro l e h
  rw [hon] at h
  injection h with h
  injection h with h
  injection h with h
  subst h
  simp [plainListener]

/-- C1 (counterexample): compile, generation, artifact fetch and module load succeed
and `main` logs `Hello from TeaVM!`, but `listener.destroy()` throws; the outer handler
then overwrites the output buffer, which ends as the error placeholder and not as the
captured text. -/
theorem compileJava_success_output_counterexample :
    worldReady.ui.isInitialized = true ∧
    compileReturns envDestroyThrows { truthy := true, shown := "true" } ∧
    envDestroyThrows.generateWebAssembly.result = .ok () ∧
    envDestroyThrows.getWebAssemblyOutputFile.result = .ok (some [0, 97, 115, 109]) ∧
    envDestroyThrows.load = .ok helloRuntime ∧
    jsTrim (capturedText [["Hello from TeaVM!"]]) ≠ "" ∧
    (compileJava envDestroyThrows worldReady).ui.jsOutput =
      "// Error: listener already detached" ∧
    (compileJava envDestroyThrows worldReady).ui.jsOutput ≠
      capturedText [["Hello from TeaVM!"]] :=
  ⟨rfl, compileReturns_of_listener _ _ _ rfl rfl rfl rfl, rfl, rfl, rfl, by decide, by decide,
    by decide⟩

/-- C1 (witness): the run in which every step succeeds and `main` logs one line. -/
theorem compileJava_success_output_witness :
    (compileJava envSuccess worldReady).ui.jsOutput = capturedText [["Hello from TeaVM!"]] ∧
      (compileJava envSuccess worldReady).ui.canRun = true :=
  compileJava_success_output envSuccess worldReady { truthy := true, shown := "true" }
    [0, 97, 115, 109] helloRuntime
    { names := ["main"], main := some { logs := [["Hello from TeaVM!"]], thrown := none } }
    { logs := [["Hello from TeaVM!"]], thrown := none }
    rfl (compileReturns_of_listener _ _ _ rfl rfl rfl rfl) rfl rfl rfl (by decide) rfl rfl rfl
    (by decide) (detachReturns_of_plainListener _ rfl)

/-- C2 (counterexample): after a successful compile the runnable flag is true; a second
compile in which `compile()` returns `false` leaves it true, next to the failure
placeholder in the output buffer. -/
theorem compileJava_compile_false_canRun_counterexample :
    worldRunnable.ui.isInitialized = true ∧
    worldRunnable.ui.canRun = true ∧
    compileReturns envCompileFalse { truthy := false, shown := "false" } ∧
    (compileJava envCompileFalse worldRunnable).ui.jsOutput = "// Java compilation failed" ∧
    (compileJava envCompileFalse worldRunnable).ui.canRun = true :=
  ⟨by decide, by decide, compileReturns_of_listener _ _ _ rfl rfl rfl rfl, by decide, by decide⟩

/-- C2 (witness): a failed compile from the freshly initialized state, where the flag
was false, leaves it false. -/
theorem compileJava_compile_false_canRun_witness :
    (compileJava envCompileFalse worldReady).ui.canRun = false :=
  compileJava_compile_false_canRun envCompileFalse worldReady { truthy := false, shown := "false" }
    rfl (compileReturns_of_listener _ _ _ rfl rfl rfl rfl) rfl

/-- C3 (counterexample): one diagnostic is delivered and `compile()` returns `false`.
The listener's line has the bracketed form, but the line appended for the same record
after the failure is detected is `ERROR: missing semicolon`, not
`[ERROR] Main.java:3 - missing semicolon`. -/
theorem compileJava_compile_false_console_counterexample :
    (compileJava envCompileFalse worldReady).ui.consoleOutput =
      "Starting compilation...\nSource file added, compiling Java...\n" ++
      "[ERROR] Main.java:3 - missing semicolon\n" ++
      "Java compilation result: false\nJava compilation failed\n" ++
      "\nDiagnostics:\nERROR: missing semicolon\n" ∧
    diagLine missingSemicolon = "[ERROR] Main.java:3 - missing semicolon\n" ∧
    failureDump [missingSemicolon] = "\nDiagnostics:\nERROR: missing semicolon\n" ∧
    failureDump [missingSemicolon] ≠ "\nDiagnostics:\n" ++ diagLine missingSemicolon :=
  ⟨by rfl, by rfl, by rfl, by decide⟩

/-- C3 (witness): the same run, through the general statement. -/
theorem compileJava_compile_false_console_witness :
    ∃ rest : String,
      (compileJava envCompileFalse worldReady).ui.consoleOutput =
        "Starting compilation...\n" ++
        concat (([] : List Diagnostic).map diagLine) ++
        concat (([] : List Diagnostic).map diagLine) ++
        "Source file added, compiling Java...\n" ++
        concat ([missingSemicolon].map diagLine) ++
        "Java compilation result: " ++ "false" ++ "\n" ++
        "Java compilation failed\n" ++
        failureDump ([] ++ [] ++ [missingSemicolon]) ++
        rest ∧
      (detachReturns envCompileFalse → rest = "") :=
  compileJava_compile_false_console envCompileFalse worldReady
    { truthy := false, shown := "false" } (some plainListener) rfl rfl rfl rfl rfl rfl

/-- C4 (failing input): the state left by a failed compile that follows a successful
one holds `// Java compilation failed` with the runnable flag true.  The guard of
`runCode` looks for `// Compilation failed`, which this text does not contain, so
`runCode` hands the buffer to `eval` and the console log ends empty instead of holding
the fixed message. -/
theorem runCode_failure_placeholder_evaluated :
    (compileJava envCompileFalse worldRunnable).ui.jsOutput = "// Java compilation failed" ∧
    (compileJava envCompileFalse worldRunnable).ui.canRun = true ∧
    includes "// Java compilation failed" "// Compilation failed" = false ∧
    (compileJava envCompileFalse worldRunnable).evals = [] ∧
    (runCode evalSilent (compileJava envCompileFalse worldRunnable)).evals =
      ["// Java compilation failed"] ∧
    (runCode evalSilent (compileJava envCompileFalse worldRunnable)).ui.consoleOutput = "" ∧
    (runCode evalSilent (compileJava envCompileFalse worldRunnable)).ui.consoleOutput ≠
      "No valid JavaScript code to run. Please compile first." :=
  ⟨by decide, by decide, by decide, by decide, by decide, by decide, by decide⟩

/-- C5 (failing input): when the generated `main` throws, and also when the module has
no `exports` so that reading the export names throws, `compileJava` ends with its
capture closure still installed in `console.log`. -/
theorem compileJava_throw_leaves_sink :
    (compileJava envMainThrows worldReady).sink = Sink.compileCapture worldReady.sink ∧
    (compileJava envMainThrows worldReady).sink ≠ worldReady.sink ∧
    (compileJava envNoExports worldReady).sink = Sink.compileCapture worldReady.sink ∧
    (compileJava envNoExports worldReady).sink ≠ worldReady.sink :=
  ⟨by decide, by decide, by decide, by decide⟩

/-- C8 (counterexample): the artifact is empty and the runnable flag was true.  The
output buffer becomes the placeholder saying the module was generated and executed,
which does not mention that no output was found, and the runnable flag is still true. -/
theorem compileJava_no_artifact_counterexample :
    worldRunnable.ui.isInitialized = true ∧
    compileReturns envEmptyArtifact { truthy := true, shown := "true" } ∧
    envEmptyArtifact.generateWebAssembly.result = .ok () ∧
    envEmptyArtifact.getWebAssemblyOutputFile.result = .ok (some []) ∧
    (compileJava envEmptyArtifact worldRunnable).ui.jsOutput =
      "// Compilation successful\n// WebAssembly module generated and executed\n" ++
      "// Check the Console Output section below for results" ∧
    includes (compileJava envEmptyArtifact worldRunnable).ui.jsOutput
      "WebAssembly module generated and executed" = true ∧
    includes (compileJava envEmptyArtifact worldRunnable).ui.jsOutput
      "No WebAssembly output found" = false ∧
    (compileJava envEmptyArtifact worldRunnable).ui.canRun = true :=
  ⟨by decide, compileReturns_of_listener _ _ _ rfl rfl rfl rfl, rfl, rfl, by decide, by decide,
    by decide, by decide⟩

/-- C8 (witness): the empty artifact from the freshly initialized state. -/
theorem compileJava_no_artifact_witness :
    (compileJava envEmptyArtifact worldReady).ui.jsOutput = executedPlaceholder ∧
      (compileJava envEmptyArtifact worldReady).ui.canRun = false ∧
      (compileJava envEmptyArtifact worldReady).ui.status =
        "Compilation successful (WebAssembly target)" ∧
      ∃ pre, (compileJava envEmptyArtifact worldReady).ui.consoleOutput =
        pre ++ "No WebAssembly output found\n" :=
  compileJava_no_artifact envEmptyArtifact worldReady { truthy := true, shown := "true" }
    (some []) rfl (compileReturns_of_listener _ _ _ rfl rfl rfl rfl) rfl rfl rfl (Or.inr rfl)
    (detachReturns_of_plainListener _ rfl)

/-- C9 (failing input): `onDiagnostic` returned a listener with a `destroy` method and
`compile()` throws; control reaches the outer handler and `destroy` is never called. -/
theorem compileJava_compile_throws_no_destroy :
    envCompileThrows.onDiagnostic = some (.ok (some plainListener)) ∧
    plainListener.destroy = some (.ok ()) ∧
    (compileJava envCompileThrows worldReady).calls =
      [.onDiagnostic, .clearSourceFiles, .addSourceFile "Main.java" "", .compile] ∧
    (compileJava envCompileThrows worldReady).calls.count .listenerDestroy = 0 ∧
    (compileJava envCompileThrows worldReady).ui.jsOutput = "// Error: compiler crashed" :=
  ⟨rfl, rfl, by decide, by decide, by decide⟩

/-- C6 (witness): the runtime-library fetch answers 404. -/
theorem initializeTeaVM_readiness_witness :
    (initializeTeaVM envRuntime404 world0).ui.isInitialized = false ∧
      (initializeTeaVM envRuntime404 world0).ui.status =
        "Error: " ++ ("Failed to load TeaVM runtime: " ++ toString 404 ++ " " ++ "Not Found") :=
  (initializeTeaVM_readiness envRuntime404 world0 rfl).2.2 sdkResponse 1024 notFoundResponse
    rfl rfl rfl rfl rfl rfl rfl rfl

/-- C7 (witness): both `compileJava` functions before initialization has finished. -/
theorem compileJava_not_ready_noop_witness :
    ((compileJava envSuccess world0).ui = world0.ui ∧
      (compileJava envSuccess world0).calls = world0.calls ∧
      (compileJava envSuccess world0).sink = world0.sink ∧
      (compileJava envSuccess world0).alerts =
        world0.alerts ++ ["TeaVM not ready yet. Please wait for initialization."]) ∧
    ((Teavm.compileJava teaEnv0 "class Main;" tea0).isInitialized = false ∧
      (Teavm.compileJava teaEnv0 "class Main;" tea0).status = tea0.status ∧
      (Teavm.compileJava teaEnv0 "class Main;" tea0).output = tea0.output ∧
      (Teavm.compileJava teaEnv0 "class Main;" tea0).jsOutput = tea0.jsOutput ∧
      (Teavm.compileJava teaEnv0 "class Main;" tea0).calls = tea0.calls ∧
      (Teavm.compileJava teaEnv0 "class Main;" tea0).alerts =
        tea0.alerts ++ ["TeaVM not ready yet!"]) :=
  compileJava_not_ready_noop envSuccess world0 teaEnv0 "class Main;" tea0 rfl rfl

end CompileNext
